import Mathlib

/-!
Verification of the NaN-boxed `Value` representation and its managed heap
(`src/vm/src/value.rs` of the akuma repository).

Machine integers (`u64`, `u32`, `i32`, `usize`) are embedded as `Nat` / `Int`
with explicit reductions modulo `2 ^ w` where the Rust code truncates or
wraps.  An `f64` is embedded by its 64-bit IEEE-754 bit pattern (the source
only ever moves floats through `f64::to_bits` / `f64::from_bits`, so the bit
pattern is the whole story at this layer).  Raw heap pointers become `Nat`
addresses indexing explicit finite maps inside a `VMState`; allocation takes
the fresh address as an explicit parameter, standing for the address returned
by the allocator.
-/

namespace Akuma

/-- `const NAN: u64 = 0x7FF0000000000000` from value.rs. -/
def NAN : Nat := 0x7FF0000000000000

/-- `const TAG_MASK: u64 = 0b111 << 48`. -/
def TAG_MASK : Nat := 0b111 <<< 48

/-- `const IMMEDIATE_MASK: u64 = 0b1111 << 44`. -/
def IMMEDIATE_MASK : Nat := 0b1111 <<< 44

/-- `const IMMEDIATE_TAG: u64 = 0b000 << 48`. -/
def IMMEDIATE_TAG : Nat := 0b000 <<< 48

/-- `const VOID_TAG: u64 = 0b0001 << 44`. -/
def VOID_TAG : Nat := 0b0001 <<< 44

/-- `const NIL_TAG: u64 = 0b0010 << 44`. -/
def NIL_TAG : Nat := 0b0010 <<< 44

/-- `const BOOL_TAG: u64 = 0b0011 << 44`. -/
def BOOL_TAG : Nat := 0b0011 <<< 44

/-- `const INT_TAG: u64 = 0b0100 << 44`. -/
def INT_TAG : Nat := 0b0100 <<< 44

/-- `const SYMBOL_TAG: u64 = 0b0101 << 44`. -/
def SYMBOL_TAG : Nat := 0b0101 <<< 44

/-- `const TRUE: u64 = 1`. -/
def TRUE : Nat := 1

/-- `const FALSE: u64 = 0`. -/
def FALSE : Nat := 0

/-- `const LAMBDA_TAG: u64 = 0b001 << 48`. -/
def LAMBDA_TAG : Nat := 0b001 <<< 48

/-- `const PAIR_TAG: u64 = 0b010 << 48`. -/
def PAIR_TAG : Nat := 0b010 <<< 48

/-- `const VEC_TAG: u64 = 0b011 << 48`. -/
def VEC_TAG : Nat := 0b011 <<< 48

/-- `const STRING_TAG: u64 = 0b100 << 48`. -/
def STRING_TAG : Nat := 0b100 <<< 48

/-- `pub struct Value(pub u64)`: a 64-bit NaN-boxed word. -/
structure Value where
  val : Nat
deriving DecidableEq

/-- `pub enum VType` with its Rust discriminants 0..9. -/
inductive VType where
  | Void | Nil | Bool | Integer | Float | Symbol | Lambda | Pair | Vec | String
deriving DecidableEq

/-- The Rust enum discriminant (`VType::X as u64`). -/
def VType.toNat : VType → Nat
  | .Void => 0
  | .Nil => 1
  | .Bool => 2
  | .Integer => 3
  | .Float => 4
  | .Symbol => 5
  | .Lambda => 6
  | .Pair => 7
  | .Vec => 8
  | .String => 9

/-- `impl From<u64> for VType` (value.rs lines 23-39); the `unreachable!()`
arm is embedded as `none`. -/
def VType.fromU64 (p : Nat) : Option VType :=
  if p = VType.toNat VType.String then some VType.String
  else if p = VType.toNat VType.Vec then some VType.Vec
  else if p = VType.toNat VType.Lambda then some VType.Lambda
  else if p = VType.toNat VType.Pair then some VType.Pair
  else if p = VType.toNat VType.Void then some VType.Void
  else none

/-- `is_imm!(is_void, VOID_TAG)` expanded. -/
def is_void (v : Value) : Bool :=
  (v.val &&& NAN == NAN) && (v.val &&& TAG_MASK == IMMEDIATE_TAG)
    && (v.val &&& IMMEDIATE_MASK == VOID_TAG)

/-- `is_imm!(is_nil, NIL_TAG)` expanded. -/
def is_nil (v : Value) : Bool :=
  (v.val &&& NAN == NAN) && (v.val &&& TAG_MASK == IMMEDIATE_TAG)
    && (v.val &&& IMMEDIATE_MASK == NIL_TAG)

/-- `is_imm!(is_bool, BOOL_TAG)` expanded. -/
def is_bool (v : Value) : Bool :=
  (v.val &&& NAN == NAN) && (v.val &&& TAG_MASK == IMMEDIATE_TAG)
    && (v.val &&& IMMEDIATE_MASK == BOOL_TAG)

/-- `is_imm!(is_integer, INT_TAG)` expanded. -/
def is_integer (v : Value) : Bool :=
  (v.val &&& NAN == NAN) && (v.val &&& TAG_MASK == IMMEDIATE_TAG)
    && (v.val &&& IMMEDIATE_MASK == INT_TAG)

/-- `is_imm!(is_symbol, SYMBOL_TAG)` expanded. -/
def is_symbol (v : Value) : Bool :=
  (v.val &&& NAN == NAN) && (v.val &&& TAG_MASK == IMMEDIATE_TAG)
    && (v.val &&& IMMEDIATE_MASK == SYMBOL_TAG)

/-- `is_pointer!(is_lambda, LAMBDA_TAG)` expanded. -/
def is_lambda (v : Value) : Bool :=
  (v.val &&& NAN == NAN) && (v.val &&& TAG_MASK == LAMBDA_TAG)

/-- `is_pointer!(is_pair, PAIR_TAG)` expanded. -/
def is_pair (v : Value) : Bool :=
  (v.val &&& NAN == NAN) && (v.val &&& TAG_MASK == PAIR_TAG)

/-- `is_pointer!(is_vec, VEC_TAG)` expanded. -/
def is_vec (v : Value) : Bool :=
  (v.val &&& NAN == NAN) && (v.val &&& TAG_MASK == VEC_TAG)

/-- `is_pointer!(is_string, STRING_TAG)` expanded. -/
def is_string (v : Value) : Bool :=
  (v.val &&& NAN == NAN) && (v.val &&& TAG_MASK == STRING_TAG)

/-- `pub const fn is_float(self) -> bool { (self.0 & NAN) != NAN }`. -/
def is_float (v : Value) : Bool :=
  (v.val &&& NAN) != NAN

/-- `pub const Void: Self = Value(NAN | VOID_TAG)`. -/
def Value.Void : Value := ⟨NAN ||| VOID_TAG⟩

/-- `pub const Nil: Self = Value(NAN | NIL_TAG)`. -/
def Value.Nil : Value := ⟨NAN ||| NIL_TAG⟩

/-- `pub const True: Self = Value(NAN | BOOL_TAG | TRUE)`. -/
def Value.True : Value := ⟨NAN ||| BOOL_TAG ||| TRUE⟩

/-- `pub const False: Self = Value(NAN | BOOL_TAG | FALSE)`. -/
def Value.False : Value := ⟨NAN ||| BOOL_TAG ||| FALSE⟩

/-- `pub fn Bool(b: bool) -> Self`. -/
def Value.Bool (b : Bool) : Value :=
  if b then Value.True else Value.False

/-- `pub fn is_false(self) -> bool { self.is_bool() && ((self.0 & TRUE) == FALSE) }`. -/
def is_false (v : Value) : Bool :=
  is_bool v && (v.val &&& TRUE == FALSE)

/-- `pub fn is_true(self) -> bool { !self.is_false() }`. -/
def is_true (v : Value) : Bool :=
  ! is_false v

/-- `i as u32` for a mathematical integer standing for an `i32`:
two's-complement reduction modulo `2 ^ 32`. -/
def i32ToU32 (i : Int) : Nat :=
  (i % 4294967296).toNat

/-- `pub const fn Integer(i: i32) -> Self { Value(NAN | INT_TAG | (i as u32 as u64)) }`. -/
def Value.Integer (i : Int) : Value :=
  ⟨NAN ||| INT_TAG ||| i32ToU32 i⟩

/-- `pub const fn to_integer(self) -> i32 { self.0 as u32 as i32 }`:
truncate to 32 bits, then reinterpret as two's complement. -/
def to_integer (v : Value) : Int :=
  if v.val % 4294967296 < 2147483648 then ((v.val % 4294967296 : Nat) : Int)
  else ((v.val % 4294967296 : Nat) : Int) - 4294967296

/-- `pub fn Float(f: f64) -> Self { Value(f.to_bits()) }`, the `f64` being
embedded by its bit pattern. -/
def Value.Float (bits : Nat) : Value :=
  ⟨bits⟩

/-- `pub fn to_float(self) -> f64 { f64::from_bits(self.0) }`, the result
being embedded by its bit pattern. -/
def to_float (v : Value) : Nat :=
  v.val

/-- `pub fn Symbol(s: Symbol) -> Self { Value(NAN | SYMBOL_TAG | (*s as u64)) }`;
the interner identifier is a `usize`, embedded as a `Nat`.  Note the source
performs no range check (its TODO comment records the missing check). -/
def Value.Symbol (id : Nat) : Value :=
  ⟨NAN ||| SYMBOL_TAG ||| id⟩

/-- `pub fn to_symbol(self) -> Symbol { Symbol::new(self.0 as u32 as usize) }`:
the word truncated to its low 32 bits. -/
def to_symbol (v : Value) : Nat :=
  v.val % 4294967296

/-- `pub fn to_pointer(self) -> u64` (value.rs lines 266-275). -/
def to_pointer (v : Value) : Nat :=
  if (v.val >>> 47) &&& 1 = 1 then
    v.val ||| (0xFFFF <<< 48)
  else
    v.val &&& ((1 <<< 48) - 1)

/-- `pub fn to_type(self) -> VType` (value.rs lines 116-140); the
`unreachable!()` arm is embedded as `none`. -/
def to_type (v : Value) : Option VType :=
  if is_void v then some VType.Void
  else if is_nil v then some VType.Nil
  else if is_bool v then some VType.Bool
  else if is_integer v then some VType.Integer
  else if is_float v then some VType.Float
  else if is_symbol v then some VType.Symbol
  else if is_lambda v then some VType.Lambda
  else if is_pair v then some VType.Pair
  else if is_vec v then some VType.Vec
  else if is_string v then some VType.String
  else none

/-! Bit-level helper lemmas used throughout. -/

theorem mod_two_pow_lor (a b k : Nat) :
    (a ||| b) % 2 ^ k = a % 2 ^ k ||| b % 2 ^ k := by
  apply Nat.eq_of_testBit_eq
  intro i
  simp [Nat.testBit_mod_two_pow, Nat.testBit_or, Bool.and_or_distrib_left]

theorem shiftRight_lor (a b n : Nat) :
    (a ||| b) >>> n = a >>> n ||| b >>> n := by
  apply Nat.eq_of_testBit_eq
  intro i
  simp [Nat.testBit_shiftRight, Nat.testBit_or]

theorem lor_two_pow_sub_one (x k : Nat) (h : x < 2 ^ k) :
    x ||| (2 ^ k - 1) = 2 ^ k - 1 := by
  apply Nat.eq_of_testBit_eq
  intro i
  simp only [Nat.testBit_or, Nat.testBit_two_pow_sub_one]
  by_cases hi : i < k
  · simp [hi]
  · have hx : x.testBit i = false :=
      Nat.testBit_lt_two_pow
        (lt_of_lt_of_le h (Nat.pow_le_pow_right (by norm_num) (Nat.le_of_not_lt hi)))
    simp [hi, hx]

theorem land_disjoint (a b k : Nat) (ha : a < 2 ^ k) (hb : b % 2 ^ k = 0) :
    a &&& b = 0 := by
  apply Nat.eq_of_testBit_eq
  intro i
  simp only [Nat.testBit_and, Nat.zero_testBit]
  by_cases hi : i < k
  · have h0 : (b % 2 ^ k).testBit i = false := by rw [hb]; simp
    rw [Nat.testBit_mod_two_pow] at h0
    simp [hi] at h0
    simp [h0]
  · have hx : a.testBit i = false :=
      Nat.testBit_lt_two_pow
        (lt_of_lt_of_le ha (Nat.pow_le_pow_right (by norm_num) (Nat.le_of_not_lt hi)))
    simp [hx]

/-- Claim C1 (amended): the ten kind predicates `is_float`, `is_void`,
`is_nil`, `is_bool`, `is_integer`, `is_symbol`, `is_lambda`, `is_pair`,
`is_vec`, `is_string` are mutually exclusive — at most one of them returns
true on any 64-bit word — while `is_true` is simply the negation of
`is_false` and therefore also holds on non-boolean values; so no more than
one of the ten kind predicates ever holds, but "exactly one of the twelve
listed predicates" fails. -/
theorem C1_at_most_one_kind (v : Value) :
    ((is_float v).toNat + (is_void v).toNat + (is_nil v).toNat + (is_bool v).toNat
        + (is_integer v).toNat + (is_symbol v).toNat + (is_lambda v).toNat
        + (is_pair v).toNat + (is_vec v).toNat + (is_string v).toNat) ≤ 1
      ∧ is_true v = ! is_false v := by
  refine ⟨?_, rfl⟩
  unfold is_float is_void is_nil is_bool is_integer is_symbol is_lambda is_pair
    is_vec is_string
  cases hA : (v.val &&& NAN == NAN)
  · simp [bne, hA]
  · cases hI : (v.val &&& TAG_MASK == IMMEDIATE_TAG)
    · cases hL : (v.val &&& TAG_MASK == LAMBDA_TAG)
      · cases hP : (v.val &&& TAG_MASK == PAIR_TAG)
        · cases hV : (v.val &&& TAG_MASK == VEC_TAG)
          · cases hS : (v.val &&& TAG_MASK == STRING_TAG) <;>
              simp_all [bne, TAG_MASK, IMMEDIATE_TAG, LAMBDA_TAG, PAIR_TAG,
                VEC_TAG, STRING_TAG]
          · simp_all [bne, TAG_MASK, IMMEDIATE_TAG, LAMBDA_TAG, PAIR_TAG,
              VEC_TAG, STRING_TAG]
        · simp_all [bne, TAG_MASK, IMMEDIATE_TAG, LAMBDA_TAG, PAIR_TAG,
            VEC_TAG, STRING_TAG]
      · simp_all [bne, TAG_MASK, IMMEDIATE_TAG, LAMBDA_TAG, PAIR_TAG, VEC_TAG,
          STRING_TAG]
    · cases h1 : (v.val &&& IMMEDIATE_MASK == VOID_TAG)
      · cases h2 : (v.val &&& IMMEDIATE_MASK == NIL_TAG)
        · cases h3 : (v.val &&& IMMEDIATE_MASK == BOOL_TAG)
          · cases h4 : (v.val &&& IMMEDIATE_MASK == INT_TAG)
            · cases h5 : (v.val &&& IMMEDIATE_MASK == SYMBOL_TAG) <;>
                simp_all [bne, TAG_MASK, IMMEDIATE_TAG, IMMEDIATE_MASK,
                  LAMBDA_TAG, PAIR_TAG, VEC_TAG, STRING_TAG, VOID_TAG, NIL_TAG,
                  BOOL_TAG, INT_TAG, SYMBOL_TAG]
            · simp_all [bne, TAG_MASK, IMMEDIATE_TAG, IMMEDIATE_MASK,
                LAMBDA_TAG, PAIR_TAG, VEC_TAG, STRING_TAG, VOID_TAG, NIL_TAG,
                BOOL_TAG, INT_TAG, SYMBOL_TAG]
          · simp_all [bne, TAG_MASK, IMMEDIATE_TAG, IMMEDIATE_MASK, LAMBDA_TAG,
              PAIR_TAG, VEC_TAG, STRING_TAG, VOID_TAG, NIL_TAG, BOOL_TAG,
              INT_TAG, SYMBOL_TAG]
        · simp_all [bne, TAG_MASK, IMMEDIATE_TAG, IMMEDIATE_MASK, LAMBDA_TAG,
            PAIR_TAG, VEC_TAG, STRING_TAG, VOID_TAG, NIL_TAG, BOOL_TAG,
            INT_TAG, SYMBOL_TAG]
      · simp_all [bne, TAG_MASK, IMMEDIATE_TAG, IMMEDIATE_MASK, LAMBDA_TAG,
          PAIR_TAG, VEC_TAG, STRING_TAG, VOID_TAG, NIL_TAG, BOOL_TAG,
          INT_TAG, SYMBOL_TAG]

/-- Claim C1 counterexample: `Value::True` is a well-formed value on which
two of the listed classification predicates (`is_bool` and `is_true`)
return true simultaneously, so "exactly one returns true" is false. -/
theorem C1_counterexample :
    is_bool Value.True = true ∧ is_true Value.True = true := by decide

/-- Claim C3 (amended): `Float` performs no canonicalization: it returns the
raw bit pattern, so `to_float` round-trips every pattern bit-for-bit, and a
NaN pattern that collides with tagged space yields a `Value` on which
`is_float` is false (it classifies as a tagged word). -/
theorem C3_float_no_canonicalization (b : Nat) :
    to_float (Value.Float b) = b
      ∧ (b &&& NAN = NAN → is_float (Value.Float b) = false) := by
  refine ⟨rfl, fun h => ?_⟩
  simp [is_float, Value.Float, h]

/-- Claim C3 counterexample: the bit pattern `NAN ||| VOID_TAG` collides with
the tagged space; `Float` of that pattern is not canonicalized: `is_float`
returns false on it and it classifies as `Void`. -/
theorem C3_counterexample :
    is_float (Value.Float (NAN ||| VOID_TAG)) = false
      ∧ is_void (Value.Float (NAN ||| VOID_TAG)) = true := by decide

/-- Claim C3 witness: instantiating the amended theorem at the colliding
pattern `NAN ||| VOID_TAG`. -/
theorem C3_witness :
    (NAN ||| VOID_TAG) &&& NAN = NAN
      ∧ to_float (Value.Float (NAN ||| VOID_TAG)) = NAN ||| VOID_TAG
      ∧ is_float (Value.Float (NAN ||| VOID_TAG)) = false :=
  ⟨by decide, (C3_float_no_canonicalization (NAN ||| VOID_TAG)).1,
    (C3_float_no_canonicalization (NAN ||| VOID_TAG)).2 (by decide)⟩

/-- Claim C5 (amended): `Symbol` performs no range check (the source's TODO
records the missing check) and `to_symbol` truncates the word to its low 32
bits, so the round-trip `to_symbol (Symbol id) = id` holds exactly when `id`
fits in 32 bits, in which case the value also classifies as a symbol. -/
theorem C5_symbol_truncation (id : Nat) (h : id < 4294967296) :
    to_symbol (Value.Symbol id) = id ∧ is_symbol (Value.Symbol id) = true := by
  have h32 : (4294967296 : Nat) = 2 ^ 32 := by norm_num
  constructor
  · show (NAN ||| SYMBOL_TAG ||| id) % 4294967296 = id
    rw [h32, mod_two_pow_lor]
    have hc : (NAN ||| SYMBOL_TAG) % 2 ^ 32 = 0 := by decide
    rw [hc, Nat.zero_or, Nat.mod_eq_of_lt (h32 ▸ h)]
  · have e1 : id &&& NAN = 0 := land_disjoint id NAN 32 (h32 ▸ h) (by decide)
    have e2 : id &&& TAG_MASK = 0 := land_disjoint id TAG_MASK 32 (h32 ▸ h) (by decide)
    have e3 : id &&& IMMEDIATE_MASK = 0 :=
      land_disjoint id IMMEDIATE_MASK 32 (h32 ▸ h) (by decide)
    show is_symbol ⟨NAN ||| SYMBOL_TAG ||| id⟩ = true
    unfold is_symbol
    simp only [Nat.and_distrib_right, e1, e2, e3, Nat.or_zero]
    decide

/-- Claim C5 counterexample: `id = 2 ^ 32` fits in 48 bits, yet the
constructor does not fail (it is total) and the round-trip collapses the id
to its low 32 bits, returning 0 instead of `id`. -/
theorem C5_counterexample :
    (4294967296 : Nat) < 2 ^ 48 ∧ to_symbol (Value.Symbol 4294967296) = 0 := by
  decide

/-- Claim C5 witness: the amended theorem instantiated at `id = 5`. -/
theorem C5_witness :
    (5 : Nat) < 4294967296 ∧ to_symbol (Value.Symbol 5) = 5
      ∧ is_symbol (Value.Symbol 5) = true :=
  ⟨by decide, (C5_symbol_truncation 5 (by decide)).1,
    (C5_symbol_truncation 5 (by decide)).2⟩

/-- Claim C6: for every `i` in the signed 32-bit range,
`to_integer (Integer i) = i`: the constructor stores the two's-complement
image of `i` in the low 32 bits and extraction reads it back. -/
theorem C6_integer_round_trip (i : Int) (h1 : -2147483648 ≤ i)
    (h2 : i < 2147483648) : to_integer (Value.Integer i) = i := by
  have hlt : i32ToU32 i < 4294967296 := by unfold i32ToU32; omega
  have hmod : (Value.Integer i).val % 4294967296 = i32ToU32 i := by
    show (NAN ||| INT_TAG ||| i32ToU32 i) % 4294967296 = i32ToU32 i
    have h32 : (4294967296 : Nat) = 2 ^ 32 := by norm_num
    rw [h32, mod_two_pow_lor]
    have hc : (NAN ||| INT_TAG) % 2 ^ 32 = 0 := by decide
    rw [hc, Nat.zero_or, Nat.mod_eq_of_lt (h32 ▸ hlt)]
  unfold to_integer
  rw [hmod]
  unfold i32ToU32
  split <;> omega

/-- Claim C6 witness: the round-trip at `i = -7`. -/
theorem C6_witness :
    (-2147483648 ≤ (-7 : Int)) ∧ ((-7 : Int) < 2147483648)
      ∧ to_integer (Value.Integer (-7)) = -7 :=
  ⟨by decide, by decide, C6_integer_round_trip (-7) (by decide) (by decide)⟩

/-- Claim C8 (amended): projections perform no kind check and signal no
error: applied to a value of the wrong kind, `to_integer` silently returns
the word's low 32 bits reinterpreted as a signed 32-bit integer (for
example `to_integer True = 1`). -/
theorem C8_projection_no_check (v : Value) (h : is_integer v = false) :
    -2147483648 ≤ to_integer v ∧ to_integer v < 2147483648
      ∧ i32ToU32 (to_integer v) = v.val % 4294967296 := by
  unfold to_integer i32ToU32
  split <;> refine ⟨by omega, by omega, by omega⟩

/-- Claim C8 counterexample: `Value::True` is not an integer, yet
`to_integer` neither panics nor returns a typed error on it — it silently
returns the low 32 bits of the word, namely 1. -/
theorem C8_counterexample :
    is_integer Value.True = false ∧ to_integer Value.True = 1 := by decide

/-- Claim C8 witness: the amended theorem instantiated at `Value::True`. -/
theorem C8_witness :
    is_integer Value.True = false
      ∧ (-2147483648 ≤ to_integer Value.True ∧ to_integer Value.True < 2147483648
          ∧ i32ToU32 (to_integer Value.True) = Value.True.val % 4294967296) :=
  ⟨by decide, C8_projection_no_check Value.True (by decide)⟩

theorem to_pointer_mk (w : Nat) :
    to_pointer ⟨w⟩ =
      if (w >>> 47) &&& 1 = 1 then w ||| (0xFFFF <<< 48)
      else w &&& ((1 <<< 48) - 1) := rfl

theorem shiftRight47_and_one (w : Nat) :
    ((w >>> 47) &&& 1 = 1) ↔ w.testBit 47 = true := by
  rw [Nat.and_one_is_mod, Nat.testBit_to_div_mod, Nat.shiftRight_eq_div_pow]
  simp

theorem to_pointer_low (w : Nat) : to_pointer ⟨w⟩ % 2 ^ 48 = w % 2 ^ 48 := by
  rw [to_pointer_mk]
  split
  · rw [mod_two_pow_lor]
    have hM : (0xFFFF <<< 48 : Nat) % 2 ^ 48 = 0 := by decide
    rw [hM, Nat.or_zero]
  · rw [Nat.shiftLeft_eq, one_mul, Nat.and_pow_two_sub_one_eq_mod,
      Nat.mod_mod_of_dvd w (dvd_refl _)]

theorem to_pointer_high (w : Nat) (hw : w < 2 ^ 64) :
    to_pointer ⟨w⟩ >>> 48 = (if w.testBit 47 then 0xFFFF else 0) := by
  rw [to_pointer_mk]
  by_cases hb : w.testBit 47 = true
  · rw [if_pos ((shiftRight47_and_one w).mpr hb), if_pos hb, shiftRight_lor]
    have hM : (0xFFFF <<< 48 : Nat) >>> 48 = 0xFFFF := by decide
    rw [hM]
    have hlt : w >>> 48 < 2 ^ 16 := by
      rw [Nat.shiftRight_eq_div_pow]
      omega
    have h16 : (0xFFFF : Nat) = 2 ^ 16 - 1 := by norm_num
    rw [h16]
    exact lor_two_pow_sub_one (w >>> 48) 16 hlt
  · rw [if_neg (fun hcc => hb ((shiftRight47_and_one w).mp hcc)), if_neg hb,
      Nat.shiftLeft_eq, one_mul, Nat.and_pow_two_sub_one_eq_mod,
      Nat.shiftRight_eq_div_pow]
    have : w % 2 ^ 48 < 2 ^ 48 := Nat.mod_lt _ (by norm_num)
    omega

theorem to_pointer_round_trip (p : Nat)
    (hcanon : p >>> 48 = if p.testBit 47 then 0xFFFF else 0) :
    to_pointer ⟨NAN ||| PAIR_TAG ||| (p &&& ((1 <<< 48) - 1))⟩ = p := by
  have hmask : p &&& ((1 <<< 48) - 1) = p % 2 ^ 48 := by
    rw [Nat.shiftLeft_eq, one_mul, Nat.and_pow_two_sub_one_eq_mod]
  have hCmod : (NAN ||| PAIR_TAG) % 2 ^ 48 = 0 := by decide
  have hClt : (NAN ||| PAIR_TAG) < 2 ^ 64 := by decide
  have hCbit : ∀ i, i < 48 → (NAN ||| PAIR_TAG).testBit i = false := by
    intro i hi
    have h0 : ((NAN ||| PAIR_TAG) % 2 ^ 48).testBit i = false := by
      rw [hCmod]; simp
    rw [Nat.testBit_mod_two_pow] at h0
    simpa [hi] using h0
  have hwbit : (NAN ||| PAIR_TAG ||| p % 2 ^ 48).testBit 47 = p.testBit 47 := by
    rw [Nat.testBit_or, hCbit 47 (by norm_num), Bool.false_or,
      Nat.testBit_mod_two_pow]
    simp
  rw [hmask]
  have hF : (0xFFFF : Nat) = 2 ^ 16 - 1 := by norm_num
  by_cases hb : p.testBit 47 = true
  · have hph : p >>> 48 = 0xFFFF := by rw [hcanon, if_pos hb]
    have hcond : ((NAN ||| PAIR_TAG ||| p % 2 ^ 48) >>> 47) &&& 1 = 1 :=
      (shiftRight47_and_one _).mpr (by rw [hwbit]; exact hb)
    rw [to_pointer_mk, if_pos hcond]
    apply Nat.eq_of_testBit_eq
    intro i
    by_cases h1 : i < 48
    · have hM : ((0xFFFF : Nat) <<< 48).testBit i = false := by
        rw [Nat.testBit_shiftLeft]
        have hn : ¬(i ≥ 48) := by omega
        simp [hn]
      rw [Nat.testBit_or, Nat.testBit_or, hM, Bool.or_false, hCbit i h1,
        Bool.false_or, Nat.testBit_mod_two_pow]
      simp [h1]
    · have hge : 48 ≤ i := by omega
      have hpmod : (p % 2 ^ 48).testBit i = false := by
        rw [Nat.testBit_mod_two_pow]; simp [h1]
      have h2 : (p >>> 48).testBit (i - 48) = p.testBit (48 + (i - 48)) :=
        Nat.testBit_shiftRight p
      rw [hph] at h2
      have h3 : 48 + (i - 48) = i := by omega
      rw [h3] at h2
      have hM : ((0xFFFF : Nat) <<< 48).testBit i = (0xFFFF : Nat).testBit (i - 48) := by
        rw [Nat.testBit_shiftLeft]
        simp [hge]
      rw [Nat.testBit_or, Nat.testBit_or, hpmod, Bool.or_false, hM, ← h2]
      by_cases h4 : i < 64
      · have ht : (0xFFFF : Nat).testBit (i - 48) = true := by
          rw [hF, Nat.testBit_two_pow_sub_one]
          simp
          omega
        rw [ht]
        simp
      · have hc0 : (NAN ||| PAIR_TAG).testBit i = false :=
          Nat.testBit_lt_two_pow
            (lt_of_lt_of_le hClt (Nat.pow_le_pow_right (by norm_num) (by omega)))
        have hf0 : (0xFFFF : Nat).testBit (i - 48) = false := by
          rw [hF, Nat.testBit_two_pow_sub_one]
          simp
          omega
        rw [hc0, hf0]
        simp
  · have hph : p >>> 48 = 0 := by rw [hcanon, if_neg hb]
    have hplt : p < 2 ^ 48 := by
      rw [Nat.shiftRight_eq_div_pow] at hph
      omega
    have hcond : ¬(((NAN ||| PAIR_TAG ||| p % 2 ^ 48) >>> 47) &&& 1 = 1) := by
      intro hcc
      exact hb (hwbit ▸ (shiftRight47_and_one _).mp hcc)
    rw [to_pointer_mk, if_neg hcond, Nat.shiftLeft_eq, one_mul,
      Nat.and_pow_two_sub_one_eq_mod, mod_two_pow_lor, hCmod, Nat.zero_or]
    omega

/-- Claim C9: `to_pointer` reconstructs the canonical address: the low 48
bits of the result are the stored low 48 bits, the upper 16 bits are all
ones when bit 47 of the word is set and all zeros otherwise, and for any
canonical 64-bit address `p` the `Pair` constructor's packing
(`& ((1<<48)-1)`) followed by `to_pointer` gives `p` back. -/
theorem C9_pointer_packing (w p : Nat) (hw : w < 2 ^ 64)
    (hcanon : p >>> 48 = if p.testBit 47 then 0xFFFF else 0) :
    to_pointer ⟨w⟩ % 2 ^ 48 = w % 2 ^ 48
      ∧ to_pointer ⟨w⟩ >>> 48 = (if w.testBit 47 then 0xFFFF else 0)
      ∧ to_pointer ⟨NAN ||| PAIR_TAG ||| (p &&& ((1 <<< 48) - 1))⟩ = p :=
  ⟨to_pointer_low w, to_pointer_high w hw, to_pointer_round_trip p hcanon⟩

/-- Claim C9 witness: the theorem at the word `0x1000` and the canonical
high-half address `0xFFFF800000001000`. -/
theorem C9_witness :
    (0x1000 : Nat) < 2 ^ 64
      ∧ ((0xFFFF800000001000 : Nat) >>> 48
          = if (0xFFFF800000001000 : Nat).testBit 47 then 0xFFFF else 0)
      ∧ (to_pointer ⟨0x1000⟩ % 2 ^ 48 = 0x1000 % 2 ^ 48
          ∧ to_pointer ⟨0x1000⟩ >>> 48
              = (if (0x1000 : Nat).testBit 47 then 0xFFFF else 0)
          ∧ to_pointer ⟨NAN ||| PAIR_TAG ||| (0xFFFF800000001000 &&& ((1 <<< 48) - 1))⟩
              = 0xFFFF800000001000) :=
  ⟨by decide, by decide,
    C9_pointer_packing 0x1000 0xFFFF800000001000 (by decide) (by decide)⟩

/-! The managed heap.  Heap cells live behind raw pointers in the source; here
they live in explicit address-indexed maps inside a `VMState`, and each
constructor takes the fresh cell address as an explicit parameter standing for
the address handed out by the allocator. -/

/-- Opaque collaborator type (spec §3.3: `env` is an opaque collaborator);
its interior is out of scope for the value layer. -/
structure Environment where
deriving DecidableEq

/-- Opaque collaborator type (bytecode operations are out of scope). -/
structure Operation where
deriving DecidableEq

/-- `heap_repr::Pair { gc, car, cdr }`. -/
structure PairCell where
  gc : Nat
  car : Value
  cdr : Value
deriving DecidableEq

/-- `heap_repr::Lambda { gc, env, code }`. -/
structure LambdaCell where
  gc : Nat
  env : Environment
  code : List Operation
deriving DecidableEq

/-- `heap_repr::SVec { gc, vec }`. -/
structure VecCell where
  gc : Nat
  vec : List Value
deriving DecidableEq

/-- `heap_repr::SString { gc, str }`. -/
structure StringCell where
  gc : Nat
  str : String
deriving DecidableEq

/-- `heap_repr::Pair::new(gc, car, cdr)` — stores the head word raw (the
masking of the top byte is commented out in the source). -/
def PairCell.new (gc : Nat) (car cdr : Value) : PairCell :=
  ⟨gc, car, cdr⟩

/-- `heap_repr::Lambda::new(root, env, code)` — note the source masks the
top byte: `gc: root & 0xff_ffff_ffff_ffff`. -/
def LambdaCell.new (root : Nat) (env : Environment) (code : List Operation) :
    LambdaCell :=
  ⟨root &&& 0xffffffffffffff, env, code⟩

/-- `heap_repr::SVec::new(gc, v)` — stores the head word raw. -/
def VecCell.new (gc : Nat) (v : List Value) : VecCell :=
  ⟨gc, v⟩

/-- `heap_repr::SString::new(gc, s)` — stores the head word raw. -/
def StringCell.new (gc : Nat) (s : String) : StringCell :=
  ⟨gc, s⟩

/-- The mutable process state: the four cell maps and the process-wide
`HEAD` word. -/
structure VMState where
  pairs : Nat → Option PairCell
  lambdas : Nat → Option LambdaCell
  vecs : Nat → Option VecCell
  strings : Nat → Option StringCell
  head : Nat

/-- The empty heap with `HEAD = 0` (the sentinel empty value). -/
def initState : VMState :=
  ⟨fun _ => none, fun _ => none, fun _ => none, fun _ => none, 0⟩

/-- `get_head()` of the crate root: returns the raw head word. -/
def get_head (s : VMState) : Nat :=
  s.head

/-- Modelled from the spec: `set_head(ptr, kind)` lives in the crate root,
which is not among the provided sources; §4.6 specifies the stored word as
`(kind << 56) | (ptr_sign << 55) | (ptr & 0x007F_FFFF_FFFF_FFFE)` where
`ptr_sign` is the sign bit (bit 47) of the original pointer. -/
def set_head (s : VMState) (p : Nat) (kind : VType) : VMState :=
  { s with
    head := (kind.toNat <<< 56) ||| (((p >>> 47) &&& 1) <<< 55)
      ||| (p &&& 0x007FFFFFFFFFFFFE) }

/-- `Value::Pair(car, cdr)` (value.rs lines 209-215): read the head, allocate
the cell with the head word as its `gc`, publish it, return the packed
pointer.  `a` is the address the allocator returns. -/
def Value.Pair (s : VMState) (a : Nat) (car cdr : Value) : VMState × Value :=
  let next := get_head s
  let s1 : VMState :=
    { s with pairs := fun x => if x = a then some (PairCell.new next car cdr) else s.pairs x }
  (set_head s1 a VType.Pair, ⟨NAN ||| PAIR_TAG ||| (a &&& ((1 <<< 48) - 1))⟩)

/-- `Value::Lambda(env, code)` (value.rs lines 199-205). -/
def Value.Lambda (s : VMState) (a : Nat) (env : Environment)
    (code : List Operation) : VMState × Value :=
  let next := get_head s
  let s1 : VMState :=
    { s with lambdas := fun x => if x = a then some (LambdaCell.new next env code) else s.lambdas x }
  (set_head s1 a VType.Lambda, ⟨NAN ||| LAMBDA_TAG ||| (a &&& ((1 <<< 48) - 1))⟩)

/-- `Value::Vec(v)` (value.rs lines 245-251). -/
def Value.Vec (s : VMState) (a : Nat) (v : List Value) : VMState × Value :=
  let next := get_head s
  let s1 : VMState :=
    { s with vecs := fun x => if x = a then some (VecCell.new next v) else s.vecs x }
  (set_head s1 a VType.Vec, ⟨NAN ||| VEC_TAG ||| (a &&& ((1 <<< 48) - 1))⟩)

/-- `Value::String(s)` (value.rs lines 255-261). -/
def Value.String (s : VMState) (a : Nat) (str : String) : VMState × Value :=
  let next := get_head s
  let s1 : VMState :=
    { s with strings := fun x => if x = a then some (StringCell.new next str) else s.strings x }
  (set_head s1 a VType.String, ⟨NAN ||| STRING_TAG ||| (a &&& ((1 <<< 48) - 1))⟩)

/-- `Value::car` — decode the pointer and read the `car` field; applied to a
word whose payload is not a live pair address the source is undefined
behavior, embedded as `none`. -/
def car (s : VMState) (v : Value) : Option Value :=
  (s.pairs (to_pointer v)).map PairCell.car

/-- `Value::cdr` — decode the pointer and read the `cdr` field. -/
def cdr (s : VMState) (v : Value) : Option Value :=
  (s.pairs (to_pointer v)).map PairCell.cdr

/-- `Value::set_car(self, v)` — overwrite the `car` field of the cell. -/
def set_car (s : VMState) (v x : Value) : VMState :=
  { s with
    pairs := fun y =>
      if y = to_pointer v then
        (s.pairs (to_pointer v)).map (fun c => { c with car := x })
      else s.pairs y }

/-- `Value::set_cdr(self, v)` — overwrite the `cdr` field of the cell. -/
def set_cdr (s : VMState) (v x : Value) : VMState :=
  { s with
    pairs := fun y =>
      if y = to_pointer v then
        (s.pairs (to_pointer v)).map (fun c => { c with cdr := x })
      else s.pairs y }

/-- Write the `gc` field of the pair cell at address `a` (`p.gc = p.gc | 1`
in the mark phase writes through the live pointer). -/
def setPairGc (s : VMState) (a g : Nat) : VMState :=
  { s with
    pairs := fun x =>
      if x = a then (s.pairs a).map (fun c => { c with gc := g }) else s.pairs x }

/-- Write the `gc` field of the lambda cell at address `a`. -/
def setLambdaGc (s : VMState) (a g : Nat) : VMState :=
  { s with
    lambdas := fun x =>
      if x = a then (s.lambdas a).map (fun c => { c with gc := g }) else s.lambdas x }

/-- Write the `gc` field of the vec cell at address `a`. -/
def setVecGc (s : VMState) (a g : Nat) : VMState :=
  { s with
    vecs := fun x =>
      if x = a then (s.vecs a).map (fun c => { c with gc := g }) else s.vecs x }

/-- Write the `gc` field of the string cell at address `a`. -/
def setStringGc (s : VMState) (a g : Nat) : VMState :=
  { s with
    strings := fun x =>
      if x = a then (s.strings a).map (fun c => { c with gc := g }) else s.strings x }

/-- Mark every value of a list in order (the `for v in &p.vec` loop of the
vec arm of `mark`), with `m` standing for `mark` at the remaining fuel. -/
def markListWith (m : VMState → Value → Option VMState) :
    VMState → List Value → Option VMState
  | s, [] => some s
  | s, v :: vs =>
    match m s v with
    | none => none
    | some s1 => markListWith m s1 vs

/-- `Value::mark` (value.rs lines 278-307), embedded with explicit fuel:
`none` means the call did not complete within the fuel (the source recursion
has no marked-bit check, so on cyclic data no fuel suffices).  The pair arm
sets the mark bit first and then recurses into the `car` and `cdr` read at
the initial dereference; `mark` never writes `car`/`cdr` fields, so those
reads agree with the live pointer the source reads through.  The vec arm
marks the elements first and only then sets the mark bit, re-reading `gc`
through the live pointer, exactly as the source does. -/
def markFuel : Nat → VMState → Value → Option VMState
  | 0, _, _ => none
  | n + 1, s, v =>
    match to_type v with
    | some VType.Lambda =>
      match s.lambdas (to_pointer v) with
      | none => none
      | some c => some (setLambdaGc s (to_pointer v) (c.gc ||| 1))
    | some VType.Pair =>
      match s.pairs (to_pointer v) with
      | none => none
      | some c =>
        match markFuel n (setPairGc s (to_pointer v) (c.gc ||| 1)) c.car with
        | none => none
        | some s2 => markFuel n s2 c.cdr
    | some VType.Vec =>
      match s.vecs (to_pointer v) with
      | none => none
      | some c =>
        match markListWith (markFuel n) s c.vec with
        | none => none
        | some s1 =>
          match s1.vecs (to_pointer v) with
          | none => none
          | some c1 => some (setVecGc s1 (to_pointer v) (c1.gc ||| 1))
    | some VType.String =>
      match s.strings (to_pointer v) with
      | none => none
      | some c => some (setStringGc s (to_pointer v) (c.gc ||| 1))
    | some _ => some s
    | none => none

theorem markFuel_cycle (a : Nat) (v : Value)
    (hv : to_type v = some VType.Pair) (hav : to_pointer v = a) :
    ∀ (n : Nat) (s : VMState) (g : Nat) (c : Value),
      s.pairs a = some ⟨g, c, v⟩ → to_type c = some VType.Integer →
      markFuel n s v = none := by
  intro n
  induction n with
  | zero => intro s g c _ _; rfl
  | succ n ih =>
    intro s g c hlook hc
    simp only [markFuel, hv, hav, hlook]
    cases n with
    | zero => simp [markFuel]
    | succ m =>
      have hinner : markFuel (m + 1) (setPairGc s a (g ||| 1)) c
          = some (setPairGc s a (g ||| 1)) := by
        simp [markFuel, hc]
      rw [hinner]
      exact ih (setPairGc s a (g ||| 1)) (g ||| 1) c (by simp [setPairGc, hlook]) hc

/-- The pair `p = Pair(Integer 1, Nil)` allocated at address 4096. -/
def cyclicBase : VMState × Value :=
  Value.Pair initState 4096 (Value.Integer 1) Value.Nil

/-- The state after `set_cdr(p, p)`: the cell's cdr is the pair itself. -/
def cyclicPairState : VMState :=
  set_cdr cyclicBase.1 cyclicBase.2 cyclicBase.2

/-- Claim C2 (code bug): `mark` has no already-marked check — the pair arm
unconditionally sets the mark bit and recurses into car and cdr — so on the
cycle built by `p = Pair(Integer 1, Nil); set_cdr(p, p)` the call `mark(p)`
recurses forever: the fuelled embedding returns within no fuel bound. -/
theorem C2_mark_diverges_on_cycle (n : Nat) :
    markFuel n cyclicPairState cyclicBase.2 = none :=
  markFuel_cycle 4096 cyclicBase.2 (by decide) (by decide) n cyclicPairState 0
    (Value.Integer 1) (by decide) (by decide)

/-- The pair `Pair(Integer 1, Nil)` at address 4096: after it, the head word
is `(Pair << 56) | 0x1000`. -/
def c4Base : VMState × Value :=
  Value.Pair initState 4096 (Value.Integer 1) Value.Nil

/-- A lambda allocated next, at address 8192. -/
def c4Lambda : VMState × Value :=
  Value.Lambda c4Base.1 8192 ⟨⟩ []

/-- A pair allocated next, at address 8192. -/
def c4Pair2 : VMState × Value :=
  Value.Pair c4Base.1 8192 Value.Nil Value.Nil

/-- A vector allocated next, at address 8192. -/
def c4Vec : VMState × Value :=
  Value.Vec c4Base.1 8192 []

/-- A string allocated next, at address 8192. -/
def c4Str : VMState × Value :=
  Value.String c4Base.1 8192 ""

/-- Claim C4 (code bug): with previous head `H = 0x0700000000001000` (type
stamp `Pair` in the top byte), the Pair, Vec and String constructors store
`gc = H` exactly, but `Lambda::new` masks off the top byte
(`root & 0xff_ffff_ffff_ffff`), storing `0x1000` instead of `H` — losing the
type stamp of the previous head that `set_gc`'s `VType::from(p >> 56)`
decoding relies on. -/
theorem C4_lambda_gc_drops_type_byte :
    get_head c4Base.1 = 0x0700000000001000
      ∧ c4Pair2.1.pairs 8192 = some ⟨0x0700000000001000, Value.Nil, Value.Nil⟩
      ∧ c4Vec.1.vecs 8192 = some ⟨0x0700000000001000, []⟩
      ∧ c4Str.1.strings 8192 = some ⟨0x0700000000001000, ""⟩
      ∧ c4Lambda.1.lambdas 8192 = some ⟨4096, ⟨⟩, []⟩
      ∧ (4096 : Nat) ≠ 0x0700000000001000 := by
  decide

/-- Claim C10: `set_car` rewrites only the `car` field of the addressed cell
(`cdr` and the `gc` header survive), `set_cdr` rewrites only the `cdr`
field, and neither mutator touches any other address, any other cell map,
or the heap head. -/
theorem C10_mutator_frame (s : VMState) (v x : Value) (cell : PairCell)
    (b : Nat) (hc : s.pairs (to_pointer v) = some cell)
    (hb : b ≠ to_pointer v) :
    (set_car s v x).pairs (to_pointer v) = some { cell with car := x }
      ∧ (set_cdr s v x).pairs (to_pointer v) = some { cell with cdr := x }
      ∧ (set_car s v x).pairs b = s.pairs b
      ∧ (set_cdr s v x).pairs b = s.pairs b
      ∧ (set_car s v x).head = s.head
      ∧ (set_cdr s v x).head = s.head
      ∧ (set_car s v x).lambdas = s.lambdas
      ∧ (set_car s v x).vecs = s.vecs
      ∧ (set_car s v x).strings = s.strings
      ∧ (set_cdr s v x).lambdas = s.lambdas
      ∧ (set_cdr s v x).vecs = s.vecs
      ∧ (set_cdr s v x).strings = s.strings := by
  unfold set_car set_cdr
  refine ⟨?_, ?_, ?_, ?_, rfl, rfl, rfl, rfl, rfl, rfl, rfl, rfl⟩ <;>
    simp [hc, hb]

/-- The pair `Pair(Integer 1, Nil)` at address 4096, for the C10 witness. -/
def c10Alloc : VMState × Value :=
  Value.Pair initState 4096 (Value.Integer 1) Value.Nil

/-- Claim C10 witness: the frame theorem at that concrete pair, overwriting
with `Integer 5` and observing the untouched address 0. -/
theorem C10_witness :
    c10Alloc.1.pairs (to_pointer c10Alloc.2) = some ⟨0, Value.Integer 1, Value.Nil⟩
      ∧ (0 : Nat) ≠ to_pointer c10Alloc.2
      ∧ ((set_car c10Alloc.1 c10Alloc.2 (Value.Integer 5)).pairs (to_pointer c10Alloc.2)
            = some ⟨0, Value.Integer 5, Value.Nil⟩
          ∧ (set_cdr c10Alloc.1 c10Alloc.2 (Value.Integer 5)).pairs (to_pointer c10Alloc.2)
              = some ⟨0, Value.Integer 1, Value.Integer 5⟩
          ∧ (set_car c10Alloc.1 c10Alloc.2 (Value.Integer 5)).pairs 0 = c10Alloc.1.pairs 0
          ∧ (set_cdr c10Alloc.1 c10Alloc.2 (Value.Integer 5)).pairs 0 = c10Alloc.1.pairs 0
          ∧ (set_car c10Alloc.1 c10Alloc.2 (Value.Integer 5)).head = c10Alloc.1.head
          ∧ (set_cdr c10Alloc.1 c10Alloc.2 (Value.Integer 5)).head = c10Alloc.1.head
          ∧ (set_car c10Alloc.1 c10Alloc.2 (Value.Integer 5)).lambdas = c10Alloc.1.lambdas
          ∧ (set_car c10Alloc.1 c10Alloc.2 (Value.Integer 5)).vecs = c10Alloc.1.vecs
          ∧ (set_car c10Alloc.1 c10Alloc.2 (Value.Integer 5)).strings = c10Alloc.1.strings
          ∧ (set_cdr c10Alloc.1 c10Alloc.2 (Value.Integer 5)).lambdas = c10Alloc.1.lambdas
          ∧ (set_cdr c10Alloc.1 c10Alloc.2 (Value.Integer 5)).vecs = c10Alloc.1.vecs
          ∧ (set_cdr c10Alloc.1 c10Alloc.2 (Value.Integer 5)).strings = c10Alloc.1.strings) :=
  ⟨by decide, by decide,
    C10_mutator_frame c10Alloc.1 c10Alloc.2 (Value.Integer 5)
      ⟨0, Value.Integer 1, Value.Nil⟩ 0 (by decide) (by decide)⟩

/-! Display (`impl fmt::Display for Value`, value.rs lines 343-402).  The
formatter is embedded as a `String`-producing function with explicit fuel
(`none` = did not complete within the fuel; cyclic pairs complete within no
fuel, matching the divergent while loop).  Two collaborator hooks are
parameters: `ff` formats a float from its bit pattern (Rust's `{}` on `f64`)
and `sf` looks a symbol up in the interner (`none` embedding the
`.unwrap()` panic on an unknown symbol). -/

/-- The `while c.is_pair()` loop of the pair arm plus the terminal printing,
with `d` standing for the element formatter at the current fuel and the
`Nat` bounding the number of chain steps taken. -/
def displayTailWith (d : VMState → Value → Option String) :
    Nat → VMState → Value → Option String
  | 0, _, _ => none
  | c + 1, s, v =>
    if is_pair v then
      match s.pairs (to_pointer v) with
      | none => none
      | some cell =>
        match d s cell.car, displayTailWith d c s cell.cdr with
        | some e, some r => some (" " ++ e ++ r)
        | _, _ => none
    else if is_nil v then some ")"
    else
      match d s v with
      | none => none
      | some e => some (" . " ++ e ++ ")")

/-- The vec arm's element loop: elements joined by `", "` with nothing after
the last. -/
def displayListWith (d : VMState → Value → Option String) :
    VMState → List Value → Option String
  | _, [] => some ""
  | s, [v] => d s v
  | s, v :: vs =>
    match d s v with
    | none => none
    | some e =>
      match displayListWith d s vs with
      | none => none
      | some r => some (e ++ ", " ++ r)

/-- The display formatter, following the source's branch order exactly:
float, integer, symbol, `True`, `False`, nil, void, lambda, pair, string,
vec, debug fallback. -/
def displayFuel (ff : Nat → String) (sf : Nat → Option String) :
    Nat → VMState → Value → Option String
  | 0, _, _ => none
  | n + 1, s, v =>
    if is_float v then some (ff v.val)
    else if is_integer v then some (toString (to_integer v))
    else if is_symbol v then sf (to_symbol v)
    else if v = Value.True then some "#t"
    else if v = Value.False then some "#f"
    else if is_nil v then some "()"
    else if is_void v then some ""
    else if is_lambda v then some "#<procedure>"
    else if is_pair v then
      match s.pairs (to_pointer v) with
      | none => none
      | some c =>
        match displayFuel ff sf n s c.car,
            displayTailWith (displayFuel ff sf n) n s c.cdr with
        | some e, some r => some ("(" ++ e ++ r)
        | _, _ => none
    else if is_string v then
      match s.strings (to_pointer v) with
      | none => none
      | some c => some ("\"" ++ c.str ++ "\"")
    else if is_vec v then
      match s.vecs (to_pointer v) with
      | none => none
      | some c =>
        match displayListWith (displayFuel ff sf n) s c.vec with
        | none => none
        | some e => some ("#(" ++ e ++ ")")
    else some ("debug: Value(" ++ toString v.val ++ ")")

/-- The claim's notion of the cdr chain of a value: the list of elements
obtained by following cdr links while each cdr is a pair, together with the
terminal non-pair cdr. -/
def chainFuel : Nat → VMState → Value → Option (List Value × Value)
  | 0, _, _ => none
  | c + 1, s, v =>
    if is_pair v then
      match s.pairs (to_pointer v) with
      | none => none
      | some cell =>
        match chainFuel c s cell.cdr with
        | none => none
        | some (l, t) => some (cell.car :: l, t)
    else some ([], v)

/-- The claim's rendering of a gathered chain: a space then the element's
display for each element, then `)` for a nil terminal and ` . t)`
otherwise.  Unlike the source's loop this works on the pure element list,
with no heap traversal. -/
def renderTail (d : VMState → Value → Option String) (s : VMState) :
    List Value → Value → Option String
  | [], t =>
    if is_nil t then some ")"
    else
      match d s t with
      | none => none
      | some e => some (" . " ++ e ++ ")")
  | v :: vs, t =>
    match d s v, renderTail d s vs t with
    | some e, some r => some (" " ++ e ++ r)
    | _, _ => none

/-- The claim's description of pair display: gather the cdr chain, open with
`(` and the display of the first element (the car), render the remaining
elements space-separated, and close per the terminal. -/
def displayPairClaim (d : VMState → Value → Option String) (c : Nat)
    (s : VMState) (v : Value) : Option String :=
  match chainFuel c s v with
  | none => none
  | some ([], _) => none
  | some (e1 :: es, t) =>
    match d s e1 with
    | none => none
    | some s1 =>
      match renderTail d s es t with
      | none => none
      | some r => some ("(" ++ s1 ++ r)

theorem is_pair_excl (v : Value) (hp : is_pair v = true) :
    is_float v = false ∧ is_integer v = false ∧ is_symbol v = false
      ∧ v ≠ Value.True ∧ v ≠ Value.False ∧ is_nil v = false
      ∧ is_void v = false ∧ is_lambda v = false := by
  unfold is_pair at hp
  simp only [Bool.and_eq_true, beq_iff_eq] at hp
  obtain ⟨hA, hT⟩ := hp
  have hB : (v.val &&& TAG_MASK == IMMEDIATE_TAG) = false := by
    simp only [beq_eq_false_iff_ne]
    rw [hT]
    decide
  have hBL : (v.val &&& TAG_MASK == LAMBDA_TAG) = false := by
    simp only [beq_eq_false_iff_ne]
    rw [hT]
    decide
  refine ⟨?_, ?_, ?_, ?_, ?_, ?_, ?_, ?_⟩
  · simp [is_float, bne, hA]
  · simp [is_integer, hB]
  · simp [is_symbol, hB]
  · intro h; subst h; revert hT; decide
  · intro h; subst h; revert hT; decide
  · simp [is_nil, hB]
  · simp [is_void, hB]
  · simp [is_lambda, hBL]

theorem displayTailWith_eq_chain (d : VMState → Value → Option String) :
    ∀ (c : Nat) (s : VMState) (v : Value),
      displayTailWith d c s v =
        match chainFuel c s v with
        | none => none
        | some (es, t) => renderTail d s es t := by
  intro c
  induction c with
  | zero => intro s v; rfl
  | succ c ih =>
    intro s v
    by_cases hp : is_pair v = true
    · simp only [displayTailWith, chainFuel, hp, if_true]
      cases hcell : s.pairs (to_pointer v) with
      | none => rfl
      | some cell =>
        dsimp only
        rw [ih s cell.cdr]
        cases hch : chainFuel c s cell.cdr with
        | none => cases d s cell.car <;> rfl
        | some pr =>
          obtain ⟨l, t⟩ := pr
          dsimp only
          simp only [renderTail]
    · simp only [displayTailWith, chainFuel, hp, if_false]
      rfl

/-- Claim C7: for every pair value, display prints it in list form — it
opens with `(` and the display of the car, follows the cdr chain printing a
space and the element's display while each cdr is a pair, and closes with
`)` when the terminal cdr is nil and with ` . t)` otherwise; formally, the
source's while-loop display coincides with gathering the cdr chain and
rendering it (`displayPairClaim`). -/
theorem C7_pair_display (ff : Nat → String) (sf : Nat → Option String)
    (n : Nat) (s : VMState) (v : Value) (hp : is_pair v = true) :
    displayFuel ff sf (n + 1) s v
      = displayPairClaim (displayFuel ff sf n) (n + 1) s v := by
  obtain ⟨hf, hi, hs, ht, hfa, hn, hvd, hl⟩ := is_pair_excl v hp
  simp only [displayFuel, displayPairClaim, chainFuel]
  rw [if_neg (by simp [hf]), if_neg (by simp [hi]), if_neg (by simp [hs]),
    if_neg ht, if_neg hfa, if_neg (by simp [hn]), if_neg (by simp [hvd]),
    if_neg (by simp [hl]), if_pos hp, if_pos hp]
  cases hcell : s.pairs (to_pointer v) with
  | none => rfl
  | some cell =>
    dsimp only
    rw [displayTailWith_eq_chain]
    cases hch : chainFuel n s cell.cdr with
    | none => cases displayFuel ff sf n s cell.car <;> rfl
    | some pr =>
      obtain ⟨l, t⟩ := pr
      dsimp only
      cases displayFuel ff sf n s cell.car <;>
        cases renderTail (displayFuel ff sf n) s l t <;> rfl

/-- The proper list `(1 2)`: `Pair(Integer 2, Nil)` at 8192, then
`Pair(Integer 1, that)` at 4096. -/
def c7Inner : VMState × Value :=
  Value.Pair initState 8192 (Value.Integer 2) Value.Nil

/-- The outer pair of the proper list `(1 2)`. -/
def c7Outer : VMState × Value :=
  Value.Pair c7Inner.1 4096 (Value.Integer 1) c7Inner.2

/-- The improper pair `(1 . 2)` of scenario S4. -/
def c7Impr : VMState × Value :=
  Value.Pair initState 4096 (Value.Integer 1) (Value.Integer 2)

/-- Claim C7 witness: the theorem at the proper list `(1 2)`, together with
the concrete outputs `(1 2)` and, for the improper pair of scenario S4,
`(1 . 2)`. -/
theorem C7_witness :
    is_pair c7Outer.2 = true
      ∧ displayFuel (fun _ => "") (fun _ => none) 3 c7Outer.1 c7Outer.2
          = displayPairClaim (displayFuel (fun _ => "") (fun _ => none) 2) 3
              c7Outer.1 c7Outer.2
      ∧ displayFuel (fun _ => "") (fun _ => none) 3 c7Outer.1 c7Outer.2
          = some "(1 2)"
      ∧ displayFuel (fun _ => "") (fun _ => none) 2 c7Impr.1 c7Impr.2
          = some "(1 . 2)" :=
  ⟨by decide, C7_pair_display (fun _ => "") (fun _ => none) 2 c7Outer.1 c7Outer.2 (by decide),
    by decide, by decide⟩

end Akuma
